import Mathlib

/-!
Verification of the B+ tree core in `src/offset_tree.rs` of `persistent_bptree`.

The Rust source is shallowly embedded: every pure computation becomes a Lean
function, interior mutability of `NodeRef` (an `UnsafeCell`) becomes explicit
state passing (functions return the updated reference together with the
result), the backend reader (`R: Read+Seek`, consulted only through
`decode(reader, offset)`) becomes a function from offsets to decoded records,
and Rust panics (failed `assert!`, out-of-bounds `Vec` indexing, `unwrap` of
`None`) become a dedicated error constructor distinct from `DecodingError`.
`u64` offsets and values are modelled as `Nat` (no arithmetic is ever
performed on them by the tree, so no wrap-around can occur).  Recursive
descent in the source can chase offsets supplied by the backend, so it is not
structurally recursive; the embedding supplies an explicit `fuel` bound which
is consumed only at recursion sites, leaving every non-recursive code path
exactly as in the source.  On an error the partially mutated node is not
returned; no property below depends on node state after a failed call (the
reference-level state after a failed resolution is modelled exactly, in
`NodeRef.load`).
-/

namespace PBT

set_option linter.unusedSectionVars false

/-- Rust `enum NodeType { Root, Internal, Leaf }` from offset_tree.rs. -/
inductive NodeType where
  | root
  | internal
  | leaf
deriving DecidableEq, Repr

/-- Rust `enum DecodingError { Corrupt(String), IoError(io::Error) }`; the payload of
an I/O error is modelled as its message string. -/
inductive DecodingError where
  | corrupt (msg : String)
  | ioError (msg : String)
deriving DecidableEq, Repr

/-- A Rust panic (failed `assert!`, out-of-bounds indexing, `unwrap`) or a
propagated `DecodingError`.  The source distinguishes the two by control flow
(panics abort, errors are returned); the embedding distinguishes them by
constructor. -/
inductive Err where
  | decoding (e : DecodingError)
  | panicked (msg : String)
deriving DecidableEq, Repr

/-- Rust `struct DiskNode<K> { node_type, keys, children }` — the on-disk record. -/
structure DiskNode (K : Type) where
  node_type : NodeType
  keys : List K
  children : List Nat

/-- The backend reader, abstracted to what the tree observes of it:
`decode(reader, offset)` yields the record stored at `offset` or fails. -/
def Backend (K : Type) : Type := Nat → Except DecodingError (DiskNode K)

mutual
/-- Rust `struct Node<K> { node_type, keys, children, modified }`. -/
inductive Node (K : Type) : Type where
  | mk (node_type : NodeType) (keys : List K) (children : List (NodeRef K))
      (modified : Bool) : Node K

/-- Rust `enum NodeRefInternal<K> { Unloaded(u64), Loaded(Box<Node<K>>) }`, the
payload of `NodeRef` (the `UnsafeCell` wrapper is modelled by explicit state
passing). -/
inductive NodeRef (K : Type) : Type where
  | unloaded (offset : Nat) : NodeRef K
  | loaded (node : Node K) : NodeRef K
end

variable {K : Type}

def Node.node_type : Node K → NodeType
  | .mk t _ _ _ => t

def Node.keys : Node K → List K
  | .mk _ ks _ _ => ks

def Node.children : Node K → List (NodeRef K)
  | .mk _ _ cs _ => cs

def Node.modified : Node K → Bool
  | .mk _ _ _ m => m

/-- The `n.modified = true` step performed by `NodeRef::get_mut`. -/
def Node.setModified (n : Node K) : Node K :=
  ⟨n.node_type, n.keys, n.children, true⟩

/-- Rust `impl From<DiskNode<K>> for Node<K>`: children become fresh `Unloaded`
references at the decoded child offsets, `modified` starts `false`. -/
def Node.fromDisk (dn : DiskNode K) : Node K :=
  ⟨dn.node_type, dn.keys, dn.children.map NodeRef.unloaded, false⟩

/-- Embeds `NodeRef::from_offset`. -/
def NodeRef.from_offset (offset : Nat) : NodeRef K :=
  NodeRef.unloaded offset

/-- Embeds `NodeRef::from_boxed_node`. -/
def NodeRef.from_boxed_node (n : Node K) : NodeRef K :=
  NodeRef.loaded n

/-- Embeds `NodeRef::load` (offset_tree.rs:102-110): resolve an `Unloaded` reference
through the backend; leave a `Loaded` one untouched.  Returns the call's
result together with the state of the reference after the call: on a failed
decode the `?` operator returns before the cell is assigned, so the reference
keeps `Unloaded(offset)`. -/
def NodeRef.load (b : Backend K) : NodeRef K → Except DecodingError Unit × NodeRef K
  | .unloaded offset =>
    match b offset with
    | .ok dn => (Except.ok (), NodeRef.loaded (Node.fromDisk dn))
    | .error e => (Except.error e, NodeRef.unloaded offset)
  | .loaded n => (Except.ok (), NodeRef.loaded n)

/-- Embeds `NodeRef::get` (offset_tree.rs:112-120): load, then read the node. -/
def NodeRef.get (b : Backend K) (r : NodeRef K) : Except Err (Node K) × NodeRef K :=
  match r.load b with
  | (.ok _, r') =>
    match r' with
    | .loaded n => (Except.ok n, NodeRef.loaded n)
    | .unloaded o => (Except.error (Err.panicked "Nodes should be loaded."), NodeRef.unloaded o)
  | (.error e, r') => (Except.error (Err.decoding e), r')

/-- Embeds `NodeRef::get_mut` (offset_tree.rs:122-133): load, mark the node
modified, hand it out for mutation. -/
def NodeRef.get_mut (b : Backend K) (r : NodeRef K) : Except Err (Node K) × NodeRef K :=
  match r.load b with
  | (.ok _, r') =>
    match r' with
    | .loaded n => (Except.ok n.setModified, NodeRef.loaded n.setModified)
    | .unloaded o => (Except.error (Err.panicked "Node not loaded."), NodeRef.unloaded o)
  | (.error e, r') => (Except.error (Err.decoding e), r')

/-- Embeds `NodeRef::offset_or_panic` (offset_tree.rs:135-143). -/
def NodeRef.offset_or_panic (msg : String) : NodeRef K → Except Err Nat
  | .unloaded offset => Except.ok offset
  | .loaded _ => Except.error (Err.panicked msg)

/-- Embeds `NodeRef::into_box` (offset_tree.rs:145-154): load, then move the owned
node out of the reference. -/
def NodeRef.into_box (b : Backend K) (r : NodeRef K) : Except Err (Node K) :=
  match r.load b with
  | (.ok _, .loaded n) => Except.ok n
  | (.ok _, .unloaded _) => Except.error (Err.panicked "Somehow, this is an unloaded node.")
  | (.error e, _) => Except.error (Err.decoding e)

variable [LinearOrder K]

/-- Result of Rust `slice::binary_search` on a sorted slice with the `Ok`/`Err`
cases collapsed to the carried index, exactly the collapse `Node::index_of`
performs: the number of keys strictly below `key`. -/
def bsIndex (keys : List K) (key : K) : Nat :=
  (keys.takeWhile (fun x => decide (x < key))).length

/-- The `Ok` case of Rust `slice::binary_search` on a sorted slice: the index
of `key` when present, `none` when absent. -/
def bsFind (keys : List K) (key : K) : Option Nat :=
  match keys[bsIndex keys key]? with
  | some x => if x = key then some (bsIndex keys key) else none
  | none => none

/-- Embeds `Node::index_of` (offset_tree.rs:177-187), including its
`assert!(self.node_type != NodeType::Leaf)`. -/
def Node.index_of (n : Node K) (key : K) : Except Err Nat :=
  if n.node_type = NodeType.leaf then
    Except.error (Err.panicked "assertion failed: self.node_type != NodeType::Leaf")
  else
    Except.ok (bsIndex n.keys key)

/-- Embeds `Node::find_offset_for` (offset_tree.rs:164-175).  `fuel` bounds the
recursive descent (consumed only at the recursion site). -/
def Node.find_offset_for (fuel : Nat) (b : Backend K) (n : Node K) (key : K) :
    Except Err (Option Nat) :=
  if n.node_type = NodeType.leaf then
    if n.children.length = 0 then Except.ok none
    else
      match bsFind n.keys key with
      | some ind =>
        match n.children[ind]? with
        | some r =>
          match r.offset_or_panic "This is a leaf, but somehow has a loaded child." with
          | .ok offset => Except.ok (some offset)
          | .error e => Except.error e
        | none => Except.error (Err.panicked "index out of bounds")
      | none => Except.ok none
  else
    match n.index_of key with
    | .error e => Except.error e
    | .ok ind =>
      match n.children[ind]? with
      | none => Except.error (Err.panicked "index out of bounds")
      | some r =>
        match NodeRef.get b r with
        | (.error e, _) => Except.error e
        | (.ok child, _) =>
          match fuel with
          | 0 => Except.error (Err.panicked "recursion fuel exhausted")
          | fuel' + 1 => Node.find_offset_for fuel' b child key

/-- Embeds `Node::split_in_place` (offset_tree.rs:190-226).  Returns the pair the
source returns — the dividing key and the boxed upper sibling — together with
the mutated `self` (the lower half).  The four `assert!`s appear in source
order; `self.keys.pop().unwrap()` on the internal path is `getLast?` plus
`dropLast`. -/
def Node.split_in_place (n : Node K) : Except Err ((K × Node K) × Node K) :=
  let half := n.keys.length / 2
  let lower_keys := n.keys.take half
  let upper_keys := n.keys.drop half
  let lower_children := n.children.take half
  let upper_children := n.children.drop half
  if lower_children.length > 1 ∧ lower_keys.length > 1 ∧
      upper_children.length > 1 ∧ upper_keys.length > 1 then
    match n.node_type with
    | NodeType.leaf =>
      match lower_keys.getLast? with
      | some ret_key =>
        Except.ok ((ret_key, ⟨NodeType.leaf, upper_keys, upper_children, true⟩),
          ⟨NodeType.leaf, lower_keys, lower_children, n.modified⟩)
      | none => Except.error (Err.panicked "called unwrap on None")
    | _ =>
      match lower_keys.getLast? with
      | some ret_key =>
        Except.ok ((ret_key, ⟨NodeType.internal, upper_keys, upper_children, true⟩),
          ⟨NodeType.internal, lower_keys.dropLast, lower_children, n.modified⟩)
      | none => Except.error (Err.panicked "called unwrap on None")
  else Except.error (Err.panicked "assertion failed in split_in_place")

/-- The split check closing `Node::insert_nonroot` (offset_tree.rs:252-255):
`if self.children.len() > split_threshold { Ok(Some(self.split_in_place())) }
else { Ok(None) }`, factored out so the decision is a named function of the
node state entering the check. -/
def Node.split_check (split_threshold : Nat) (n1 : Node K) :
    Except Err (Node K × Option (K × Node K)) :=
  if n1.children.length > split_threshold then
    match n1.split_in_place with
    | .error e => Except.error e
    | .ok (ret, selfAfter) => Except.ok (selfAfter, some ret)
  else Except.ok (n1, none)

/-- Embeds `Node::insert_nonroot` (offset_tree.rs:228-256): the `assert!`, the
`index_of` call, the local phase (leaf overwrite / sorted leaf insert, or the
recursive descent plus splice of a reported child split, offset_tree.rs:
233-251), then the split check. -/
def Node.insert_nonroot (fuel : Nat) (b : Backend K) (n : Node K) (key : K)
    (value : Nat) (split_threshold : Nat) :
    Except Err (Node K × Option (K × Node K)) :=
  if n.node_type = NodeType.root then
    Except.error (Err.panicked "assertion failed: self.node_type != NodeType::Root")
  else
    match n.index_of key with
    | .error e => Except.error e
    | .ok target =>
      match (if n.node_type = NodeType.leaf then
          match n.keys[target]? with
          | none => Except.error (Err.panicked "index out of bounds")
          | some kt =>
            if kt = key then
              Except.ok (⟨n.node_type, n.keys,
                n.children.set target (NodeRef.from_offset value), n.modified⟩ : Node K)
            else
              Except.ok (⟨n.node_type, n.keys.insertIdx target key,
                n.children.insertIdx target (NodeRef.from_offset value), n.modified⟩ : Node K)
        else
          match n.children[target]? with
          | none => Except.error (Err.panicked "index out of bounds")
          | some r =>
            match NodeRef.get_mut b r with
            | (.error e, _) => Except.error e
            | (.ok child, _) =>
              match fuel with
              | 0 => Except.error (Err.panicked "recursion fuel exhausted")
              | fuel' + 1 =>
                match Node.insert_nonroot fuel' b child key value split_threshold with
                | .error e => Except.error e
                | .ok (child', needs_split) =>
                  match needs_split with
                  | none => Except.ok (⟨n.node_type, n.keys,
                      n.children.set target (NodeRef.from_boxed_node child'),
                      n.modified⟩ : Node K)
                  | some (k, sib) =>
                    Except.ok (⟨n.node_type, n.keys.insertIdx target k,
                      (n.children.set target (NodeRef.from_boxed_node child')).insertIdx
                        (target + 1) (NodeRef.from_boxed_node sib),
                      n.modified⟩ : Node K)) with
      | .error e => Except.error e
      | .ok n1 => Node.split_check split_threshold n1


/-- The split check closing `Node::insert` (offset_tree.rs:268-277): on
overflow the root's type flag first transitions Leaf→Leaf / Root→Internal
(`Internal` is unreachable there and panics), then `split_in_place` runs. -/
def Node.root_split_check (split_threshold : Nat) (n1 : Node K) :
    Except Err (Node K × Option (K × Node K)) :=
  if n1.children.length > split_threshold then
    match n1.node_type with
    | NodeType.leaf =>
      match (⟨NodeType.leaf, n1.keys, n1.children, n1.modified⟩ : Node K).split_in_place with
      | .error e => Except.error e
      | .ok (ret, selfAfter) => Except.ok (selfAfter, some ret)
    | NodeType.root =>
      match (⟨NodeType.internal, n1.keys, n1.children, n1.modified⟩ : Node K).split_in_place with
      | .error e => Except.error e
      | .ok (ret, selfAfter) => Except.ok (selfAfter, some ret)
    | NodeType.internal =>
      Except.error (Err.panicked "Should be a root or a lweaf.")
  else Except.ok (n1, none)

/-- Embeds `Node::insert` (offset_tree.rs:258-278), the root-aware entry.  The
source computes `split_threshold = (order/2 + order%2) as usize` once at
line 260 and uses it for the descent and for its own check; the embedding
writes that expression at each use site of the single `let`-bound value. -/
def Node.insert (fuel : Nat) (b : Backend K) (n : Node K) (key : K)
    (value : Nat) (order : Nat) :
    Except Err (Node K × Option (K × Node K)) :=
  match n.index_of key with
  | .error e => Except.error e
  | .ok target =>
    match n.children[target]? with
    | none => Except.error (Err.panicked "index out of bounds")
    | some r =>
      match NodeRef.get_mut b r with
      | (.error e, _) => Except.error e
      | (.ok child, _) =>
        match Node.insert_nonroot fuel b child key value (order / 2 + order % 2) with
        | .error e => Except.error e
        | .ok (child', needs_split) =>
          match needs_split with
          | none =>
            Node.root_split_check (order / 2 + order % 2)
              ⟨n.node_type, n.keys,
                n.children.set target (NodeRef.from_boxed_node child'), n.modified⟩
          | some (k, sib) =>
            Node.root_split_check (order / 2 + order % 2)
              ⟨n.node_type, n.keys.insertIdx target k,
                (n.children.set target (NodeRef.from_boxed_node child')).insertIdx
                  (target + 1) (NodeRef.from_boxed_node sib), n.modified⟩

/-- Rust `struct OffsetTree<K> { root_reference, order }` (offset_tree.rs:281-284). -/
structure OffsetTree (K : Type) where
  root_reference : NodeRef K
  order : Nat

/-- Embeds `OffsetTree::from_root_offset` (offset_tree.rs:287-292). -/
def OffsetTree.from_root_offset (K : Type) (offset : Nat) (order : Nat) : OffsetTree K :=
  ⟨NodeRef.from_offset offset, order⟩

/-- Modelled from the spec: `OffsetTree::empty(order)` is absent from the
sources (only the test suite calls it); per the spec it "builds a tree with a
single empty Leaf root". -/
def OffsetTree.empty (K : Type) (order : Nat) : OffsetTree K :=
  ⟨NodeRef.loaded ⟨NodeType.leaf, [], [], false⟩, order⟩

/-- Embeds `OffsetTree::offset_for` (offset_tree.rs:298-300). -/
def OffsetTree.offset_for (fuel : Nat) (b : Backend K) (t : OffsetTree K) (key : K) :
    Except Err (Option Nat) :=
  match NodeRef.get b t.root_reference with
  | (.error e, _) => Except.error e
  | (.ok n, _) => Node.find_offset_for fuel b n key

/-- Embeds `OffsetTree::contains` (offset_tree.rs:294-296). -/
def OffsetTree.contains (fuel : Nat) (b : Backend K) (t : OffsetTree K) (key : K) :
    Except Err Bool :=
  match OffsetTree.offset_for fuel b t key with
  | .error e => Except.error e
  | .ok o => Except.ok o.isSome

/-- Embeds `OffsetTree::insert` (offset_tree.rs:302-317).  On a root split the old
root is taken out of the reference with `into_box` and a brand-new `Root`
node over the two halves is installed. -/
def OffsetTree.insert (fuel : Nat) (b : Backend K) (t : OffsetTree K) (key : K)
    (value : Nat) : Except Err (OffsetTree K) :=
  match NodeRef.get_mut b t.root_reference with
  | (.error e, _) => Except.error e
  | (.ok n, _) =>
    match Node.insert fuel b n key value t.order with
    | .error e => Except.error e
    | .ok (n', needs_split) =>
      match needs_split with
      | none => Except.ok ⟨NodeRef.from_boxed_node n', t.order⟩
      | some (k, right) =>
        match NodeRef.into_box b (NodeRef.from_boxed_node n') with
        | .error e => Except.error e
        | .ok left =>
          Except.ok ⟨NodeRef.from_boxed_node
            ⟨NodeType.root, [k], [NodeRef.from_boxed_node left, NodeRef.from_boxed_node right],
              true⟩, t.order⟩

/-! ### Helper lemmas: classification of errors

Every `DecodingError` surfacing from a tree operation is literally an error
the backend returned; panics are the separate `Err.panicked` constructor. -/

lemma load_error_from_backend (b : Backend K) (r : NodeRef K) (e : DecodingError)
    (h : (r.load b).1 = Except.error e) : ∃ off, b off = Except.error e := by
  cases r with
  | loaded n => simp [NodeRef.load] at h
  | unloaded off =>
    cases hb : b off with
    | ok dn => rw [NodeRef.load, hb] at h; simp at h
    | error e' =>
      rw [NodeRef.load, hb] at h
      simp at h
      exact ⟨off, by rw [hb, h]⟩

lemma get_decoding_error_from_backend (b : Backend K) (r : NodeRef K) (e : DecodingError)
    (h : (NodeRef.get b r).1 = Except.error (Err.decoding e)) :
    ∃ off, b off = Except.error e := by
  rw [NodeRef.get] at h
  rcases hl : r.load b with ⟨res, r'⟩
  rw [hl] at h
  cases res with
  | ok u =>
    cases r' with
    | loaded n => simp at h
    | unloaded o => simp at h
  | error e' =>
    simp at h
    exact h ▸ load_error_from_backend b r e' (by rw [hl])

lemma get_mut_decoding_error_from_backend (b : Backend K) (r : NodeRef K) (e : DecodingError)
    (h : (NodeRef.get_mut b r).1 = Except.error (Err.decoding e)) :
    ∃ off, b off = Except.error e := by
  rw [NodeRef.get_mut] at h
  rcases hl : r.load b with ⟨res, r'⟩
  rw [hl] at h
  cases res with
  | ok u =>
    cases r' with
    | loaded n => simp at h
    | unloaded o => simp at h
  | error e' =>
    simp at h
    exact h ▸ load_error_from_backend b r e' (by rw [hl])

lemma split_in_place_no_decoding_error (n : Node K) (e : DecodingError) :
    n.split_in_place ≠ Except.error (Err.decoding e) := by
  intro h
  rw [Node.split_in_place] at h
  split at h
  · split at h <;> split at h <;> simp_all
  · simp at h

lemma split_check_no_decoding_error (th : Nat) (n1 : Node K)
    (e : DecodingError) : Node.split_check th n1 ≠ Except.error (Err.decoding e) := by
  intro h
  rw [Node.split_check] at h
  split at h
  · split at h
    · rename_i e1 heq
      rename_i x1
      simp only [Except.error.injEq] at h
      exact split_in_place_no_decoding_error n1 e (h ▸ heq)
    · simp at h
  · simp at h

lemma root_split_check_no_decoding_error (th : Nat) (n1 : Node K)
    (e : DecodingError) : Node.root_split_check th n1 ≠ Except.error (Err.decoding e) := by
  intro h
  rw [Node.root_split_check] at h
  split at h
  · split at h
    · split at h
      · rename_i x1 e1 heq
        simp only [Except.error.injEq] at h
        exact split_in_place_no_decoding_error _ e (h ▸ heq)
      · simp at h
    · split at h
      · rename_i x1 e1 heq
        simp only [Except.error.injEq] at h
        exact split_in_place_no_decoding_error _ e (h ▸ heq)
      · simp at h
    · simp at h
  · simp at h

lemma find_offset_for_decoding_error_from_backend :
    ∀ (fuel : Nat) (b : Backend K) (n : Node K) (key : K) (e : DecodingError),
      Node.find_offset_for fuel b n key = Except.error (Err.decoding e) →
      ∃ off, b off = Except.error e := by
  intro fuel
  induction fuel with
  | zero =>
    intro b n key e h
    rw [Node.find_offset_for] at h
    split at h
    · split at h
      · simp at h
      · split at h
        · split at h
          · split at h
            · simp at h
            · rename_i r hch x1 e1 heq
              cases r <;> simp_all [NodeRef.offset_or_panic]
          · simp at h
        · simp at h
    · split at h
      · rename_i hnl x1 e1 heq
        rw [Node.index_of, if_neg hnl] at heq
        exact absurd heq (by simp)
      · split at h
        · simp at h
        · split at h
          · rename_i r hch x1 e1 snd heq
            simp only [Except.error.injEq] at h
            subst h
            exact get_decoding_error_from_backend b r e (by rw [heq])
          · simp at h
  | succ fuel ih =>
    intro b n key e h
    rw [Node.find_offset_for] at h
    split at h
    · split at h
      · simp at h
      · split at h
        · split at h
          · split at h
            · simp at h
            · rename_i r hch x1 e1 heq
              cases r <;> simp_all [NodeRef.offset_or_panic]
          · simp at h
        · simp at h
    · split at h
      · rename_i hnl x1 e1 heq
        rw [Node.index_of, if_neg hnl] at heq
        exact absurd heq (by simp)
      · split at h
        · simp at h
        · split at h
          · rename_i r hch x1 e1 snd heq
            simp only [Except.error.injEq] at h
            subst h
            exact get_decoding_error_from_backend b r e (by rw [heq])
          · rename_i x1 child snd heq
            exact ih b child key e h



lemma insert_nonroot_decoding_error_from_backend :
    ∀ (fuel : Nat) (b : Backend K) (n : Node K) (key : K) (value th : Nat)
      (e : DecodingError),
      Node.insert_nonroot fuel b n key value th = Except.error (Err.decoding e) →
      ∃ off, b off = Except.error e := by
  intro fuel
  induction fuel with
  | zero =>
    intro b n key value th e h
    rw [Node.insert_nonroot] at h
    split at h
    · simp at h
    · split at h
      · rename_i x1 e1 heq
        rw [Node.index_of] at heq
        split at heq <;> simp_all
      · split at h
        · rename_i x1 e1 heq
          simp only [Except.error.injEq] at h
          subst h
          split at heq
          · split at heq
            · simp at heq
            · split at heq <;> simp_all
          · split at heq
            · simp at heq
            · split at heq
              · rename_i r hch x2 e2 snd hgm
                simp only [Except.error.injEq] at heq
                subst heq
                exact get_mut_decoding_error_from_backend b r e (by rw [hgm])
              · simp at heq
        · rename_i x1 n1 heq
          exact absurd h (split_check_no_decoding_error th n1 e)
  | succ fuel ih =>
    intro b n key value th e h
    rw [Node.insert_nonroot] at h
    split at h
    · simp at h
    · split at h
      · rename_i x1 e1 heq
        rw [Node.index_of] at heq
        split at heq <;> simp_all
      · split at h
        · rename_i x1 e1 heq
          simp only [Except.error.injEq] at h
          subst h
          split at heq
          · split at heq
            · simp at heq
            · split at heq <;> simp_all
          · split at heq
            · simp at heq
            · split at heq
              · rename_i r hch x2 e2 snd hgm
                simp only [Except.error.injEq] at heq
                subst heq
                exact get_mut_decoding_error_from_backend b r e (by rw [hgm])
              · rename_i r hch x2 child snd hgm
                dsimp only [] at heq
                rcases hrec : Node.insert_nonroot fuel b child key value th with e2 | pair
                · rw [hrec] at heq
                  simp only [Except.error.injEq] at heq
                  subst heq
                  exact ih b child key value th e hrec
                · rcases pair with ⟨childq, needs_split⟩
                  rw [hrec] at heq
                  rcases needs_split with _ | ⟨k, sib⟩ <;> simp at heq
        · rename_i x1 n1 heq
          exact absurd h (split_check_no_decoding_error th n1 e)



lemma insert_root_decoding_error_from_backend
    (fuel : Nat) (b : Backend K) (n : Node K) (key : K) (value order : Nat)
    (e : DecodingError)
    (h : Node.insert fuel b n key value order = Except.error (Err.decoding e)) :
    ∃ off, b off = Except.error e := by
  rw [Node.insert] at h
  split at h
  · rename_i x1 e1 heq
    rw [Node.index_of] at heq
    split at heq <;> simp_all
  · split at h
    · simp at h
    · split at h
      · rename_i r hch x2 e1 snd hgm
        simp only [Except.error.injEq] at h
        subst h
        exact get_mut_decoding_error_from_backend b r e (by rw [hgm])
      · split at h
        · rename_i e1 hrec
          simp only [Except.error.injEq] at h
          subst h
          exact insert_nonroot_decoding_error_from_backend fuel b _ key value _ e hrec
        · rename_i pair childq needs hrec
          split at h
          · exact absurd h (root_split_check_no_decoding_error _ _ e)
          · exact absurd h (root_split_check_no_decoding_error _ _ e)

lemma offset_for_decoding_error_from_backend
    (fuel : Nat) (b : Backend K) (t : OffsetTree K) (key : K) (e : DecodingError)
    (h : OffsetTree.offset_for fuel b t key = Except.error (Err.decoding e)) :
    ∃ off, b off = Except.error e := by
  rw [OffsetTree.offset_for] at h
  split at h
  · rename_i x1 e1 snd heq
    simp only [Except.error.injEq] at h
    subst h
    exact get_decoding_error_from_backend b _ e (by rw [heq])
  · rename_i x1 n1 snd heq
    exact find_offset_for_decoding_error_from_backend fuel b n1 key e h

lemma contains_decoding_error_from_backend
    (fuel : Nat) (b : Backend K) (t : OffsetTree K) (key : K) (e : DecodingError)
    (h : OffsetTree.contains fuel b t key = Except.error (Err.decoding e)) :
    ∃ off, b off = Except.error e := by
  rw [OffsetTree.contains] at h
  split at h
  · rename_i e1 heq
    simp only [Except.error.injEq] at h
    subst h
    exact offset_for_decoding_error_from_backend fuel b t key e heq
  · simp at h

lemma tree_insert_decoding_error_from_backend
    (fuel : Nat) (b : Backend K) (t : OffsetTree K) (key : K) (value : Nat)
    (e : DecodingError)
    (h : OffsetTree.insert fuel b t key value = Except.error (Err.decoding e)) :
    ∃ off, b off = Except.error e := by
  rw [OffsetTree.insert] at h
  split at h
  · rename_i x1 e1 snd heq
    simp only [Except.error.injEq] at h
    subst h
    exact get_mut_decoding_error_from_backend b _ e (by rw [heq])
  · rename_i x1 n1 snd heq
    split at h
    · rename_i e1 hrec
      simp only [Except.error.injEq] at h
      subst h
      exact insert_root_decoding_error_from_backend fuel b n1 key value t.order e hrec
    · rename_i pair nq needs hrec
      split at h
      · simp at h
      · rename_i k right
        split at h
        · rename_i e1 hbox
          simp [NodeRef.into_box, NodeRef.from_boxed_node, NodeRef.load] at hbox
        · simp at h

/-! ### Claim theorems -/

/-- Concrete backend for the C1 evaluation: offset 0 holds a one-entry Leaf
root record. -/
def c1b : Backend Nat := fun offset =>
  if offset = 0 then Except.ok ⟨NodeType.leaf, [3], [30]⟩
  else Except.error (DecodingError.corrupt "unmapped offset")

/-- Claim C1 (code bug): the round-trip property cannot hold because every
insertion panics.  On a well-formed one-entry tree, `offset_for` works, but
the very first `insert` dies in `index_of`'s
`assert!(self.node_type != NodeType::Leaf)` the moment the descent touches a
Leaf — here already at the Leaf root. -/
theorem claim_C1_insert_panics_on_leaf :
    OffsetTree.offset_for 5 c1b (OffsetTree.from_root_offset Nat 0 7) 3 =
      Except.ok (some 30) ∧
    OffsetTree.insert 5 c1b (OffsetTree.from_root_offset Nat 0 7) 3 99 =
      Except.error (Err.panicked "assertion failed: self.node_type != NodeType::Leaf") :=
  ⟨rfl, rfl⟩

/-- Concrete backend for the C2 evaluation: a Root over two Leaves. -/
def c2b : Backend Nat := fun offset =>
  if offset = 0 then Except.ok ⟨NodeType.root, [10], [1, 2]⟩
  else if offset = 1 then Except.ok ⟨NodeType.leaf, [5, 10], [50, 100]⟩
  else if offset = 2 then Except.ok ⟨NodeType.leaf, [15, 20], [150, 200]⟩
  else Except.error (DecodingError.corrupt "unmapped offset")

/-- Claim C2 (code bug): overwrite of an existing key (5) and sorted insert
of a fresh key above every leaf key (25) both panic in `index_of`'s Leaf
assertion before the leaf branch of `insert_nonroot` can run; lookups on the
same tree succeed. -/
theorem claim_C2_overwrite_panics :
    OffsetTree.offset_for 5 c2b (OffsetTree.from_root_offset Nat 0 7) 5 =
      Except.ok (some 50) ∧
    OffsetTree.insert 5 c2b (OffsetTree.from_root_offset Nat 0 7) 5 77 =
      Except.error (Err.panicked "assertion failed: self.node_type != NodeType::Leaf") ∧
    OffsetTree.insert 5 c2b (OffsetTree.from_root_offset Nat 0 7) 25 250 =
      Except.error (Err.panicked "assertion failed: self.node_type != NodeType::Leaf") :=
  ⟨rfl, rfl, rfl⟩

/-- Claim C3: on the (spec-modelled) freshly constructed empty tree — a
single Leaf root with no keys and no children — `offset_for` returns `none`
for every key, every backend and every recursion bound. -/
theorem claim_C3_empty_tree (order fuel : Nat) (b : Backend K) (key : K) :
    (OffsetTree.empty K order).root_reference =
      NodeRef.loaded ⟨NodeType.leaf, [], [], false⟩ ∧
    (OffsetTree.empty K order).order = order ∧
    OffsetTree.offset_for fuel b (OffsetTree.empty K order) key = Except.ok none := by
  refine ⟨rfl, rfl, ?_⟩
  cases fuel <;> rfl

/-- Witness for C3 at a concrete order, fuel, backend and key. -/
theorem claim_C3_empty_tree_witness :
    OffsetTree.offset_for 3 (fun _ => Except.error (DecodingError.corrupt "nothing stored"))
      (OffsetTree.empty Nat 7) 42 = Except.ok none :=
  (claim_C3_empty_tree 7 3 _ 42).2.2

/-- Concrete backend for the C4 evaluation: order 5 gives threshold 3 and
leaf 1 already holds 3 entries, so inserting key 3 would have to split it. -/
def c4b : Backend Nat := fun offset =>
  if offset = 0 then Except.ok ⟨NodeType.root, [10], [1, 2]⟩
  else if offset = 1 then Except.ok ⟨NodeType.leaf, [2, 4, 6], [20, 40, 60]⟩
  else if offset = 2 then Except.ok ⟨NodeType.leaf, [12, 14], [120, 140]⟩
  else Except.error (DecodingError.corrupt "unmapped offset")

/-- Claim C4 (code bug): the threshold arithmetic `order/2 + order%2` is the
ceiling of `order/2` (here 3 for order 5), but no insertion ever reaches
either split check: the descent panics in `index_of` at the leaf, so no node
ever attains a post-insertion count at all. -/
theorem claim_C4_threshold_check_unreachable :
    (5 / 2 + 5 % 2 = 3) ∧
    OffsetTree.insert 5 c4b (OffsetTree.from_root_offset Nat 0 5) 3 30 =
      Except.error (Err.panicked "assertion failed: self.node_type != NodeType::Leaf") :=
  ⟨rfl, rfl⟩

/-- Claim C5: a successful `split_in_place` divides keys and children at the
key midpoint `len/2`; the lower half stays in the node (same `modified`
flag), the upper half moves to a fresh sibling marked modified, of the node's
(post-demotion) kind.  For a Leaf the separator is the last key of the lower
half and remains in it; for an Internal or Root the separator is popped and,
when the keys are strictly ascending, occurs in neither half. -/
theorem claim_C5_split_midpoint
    (n lower upper : Node K) (sep : K)
    (hs : n.split_in_place = Except.ok ((sep, upper), lower))
    (hsort : n.keys.Pairwise (· < ·)) :
    upper.keys = n.keys.drop (n.keys.length / 2) ∧
    upper.children = n.children.drop (n.keys.length / 2) ∧
    lower.children = n.children.take (n.keys.length / 2) ∧
    upper.modified = true ∧
    upper.node_type = lower.node_type ∧
    (n.node_type = NodeType.leaf →
      lower.node_type = NodeType.leaf ∧
      lower.keys = n.keys.take (n.keys.length / 2) ∧
      lower.keys.getLast? = some sep ∧ sep ∈ lower.keys) ∧
    (n.node_type ≠ NodeType.leaf →
      lower.node_type = NodeType.internal ∧
      n.keys.take (n.keys.length / 2) = lower.keys ++ [sep] ∧
      sep ∉ lower.keys ∧ sep ∉ upper.keys) := by
  rw [Node.split_in_place] at hs
  split at hs
  · rename_i hasserts
    split at hs
    · rename_i hleaf
      split at hs
      · rename_i ret_key hlast
        simp only [Except.ok.injEq, Prod.mk.injEq] at hs
        obtain ⟨⟨hsep, hupper⟩, hlower⟩ := hs
        subst hupper
        subst hlower
        rw [hsep] at hlast
        refine ⟨rfl, rfl, rfl, rfl, rfl, ?_, ?_⟩
        · intro _
          refine ⟨rfl, rfl, hlast, ?_⟩
          have hmem := List.dropLast_append_getLast? sep (Option.mem_def.mpr hlast)
          show sep ∈ n.keys.take (n.keys.length / 2)
          rw [← hmem]
          simp
        · intro hne
          exact absurd hleaf hne
      · exact absurd hs (by simp)
    · rename_i hnleaf
      split at hs
      · rename_i ret_key hlast
        simp only [Except.ok.injEq, Prod.mk.injEq] at hs
        obtain ⟨⟨hsep, hupper⟩, hlower⟩ := hs
        subst hupper
        subst hlower
        rw [hsep] at hlast
        have hconcat : (n.keys.take (n.keys.length / 2)).dropLast ++ [sep] =
            n.keys.take (n.keys.length / 2) :=
          List.dropLast_append_getLast? sep (Option.mem_def.mpr hlast)
        refine ⟨rfl, rfl, rfl, rfl, rfl, ?_, ?_⟩
        · intro hleaf
          exact absurd hleaf hnleaf
        · intro _
          refine ⟨rfl, hconcat.symm, ?_, ?_⟩
          · intro hmem
            have hpw : (n.keys.take (n.keys.length / 2)).Pairwise (· < ·) :=
              hsort.sublist (List.take_sublist _ _)
            rw [← hconcat, List.pairwise_append] at hpw
            exact lt_irrefl sep (hpw.2.2 sep hmem sep (List.mem_singleton_self sep))
          · intro hmem
            have hpw := hsort
            rw [← List.take_append_drop (n.keys.length / 2) n.keys,
              List.pairwise_append] at hpw
            have hsep_mem : sep ∈ n.keys.take (n.keys.length / 2) := by
              rw [← hconcat]; simp
            exact lt_irrefl sep (hpw.2.2 sep hsep_mem sep hmem)
      · exact absurd hs (by simp)
  · exact absurd hs (by simp)

/-- Concrete internal node (4 keys, 5 children) for the C5 witness. -/
def c5node : Node Nat :=
  ⟨NodeType.internal, [1, 2, 3, 4],
    [NodeRef.unloaded 0, NodeRef.unloaded 1, NodeRef.unloaded 2,
      NodeRef.unloaded 3, NodeRef.unloaded 4], false⟩

/-- Lower half produced by splitting `c5node`. -/
def c5lower : Node Nat :=
  ⟨NodeType.internal, [1], [NodeRef.unloaded 0, NodeRef.unloaded 1], false⟩

/-- Upper half produced by splitting `c5node`. -/
def c5upper : Node Nat :=
  ⟨NodeType.internal, [3, 4],
    [NodeRef.unloaded 2, NodeRef.unloaded 3, NodeRef.unloaded 4], true⟩

/-- Witness for C5: `c5node` splits with separator 2 popped out of both
halves. -/
theorem claim_C5_split_midpoint_witness :
    c5node.split_in_place = Except.ok ((2, c5upper), c5lower) ∧
    c5node.keys.Pairwise (· < ·) ∧
    ((2 : Nat) ∉ c5lower.keys ∧ (2 : Nat) ∉ c5upper.keys) := by
  refine ⟨rfl, by decide, ?_⟩
  have h := claim_C5_split_midpoint c5node c5lower c5upper 2 rfl (by decide)
  exact (h.2.2.2.2.2.2 (by decide)).2.2

/-- Concrete backend for the C6 evaluation: a full Root over four full
Leaves at order 7 (threshold 4); inserting key 5 would split leaf 1 and then
the Root itself — but the descent panics at the leaf first. -/
def c6b : Backend Nat := fun offset =>
  if offset = 0 then Except.ok ⟨NodeType.root, [10, 20, 30], [1, 2, 3, 4]⟩
  else if offset = 1 then Except.ok ⟨NodeType.leaf, [2, 4, 6, 8], [20, 40, 60, 80]⟩
  else if offset = 2 then Except.ok ⟨NodeType.leaf, [12, 14, 16, 18], [120, 140, 160, 180]⟩
  else if offset = 3 then Except.ok ⟨NodeType.leaf, [22, 24, 26, 28], [220, 240, 260, 280]⟩
  else if offset = 4 then Except.ok ⟨NodeType.leaf, [32, 34, 36, 38], [320, 340, 360, 380]⟩
  else Except.error (DecodingError.corrupt "unmapped offset")

/-- Claim C6 (code bug): root growth is dead code — `Node::insert` can never
report a split upward because the descent panics in `index_of` at the first
Leaf it must insert into, so `OffsetTree::insert` never synthesizes a new
Root. -/
theorem claim_C6_root_growth_unreachable :
    OffsetTree.insert 9 c6b (OffsetTree.from_root_offset Nat 0 7) 5 50 =
      Except.error (Err.panicked "assertion failed: self.node_type != NodeType::Leaf") :=
  rfl

/-- Concrete backend for the C7 evaluation: a small well-formed two-level
tree satisfying every structural invariant. -/
def c7b : Backend Nat := fun offset =>
  if offset = 0 then Except.ok ⟨NodeType.root, [50], [1, 2]⟩
  else if offset = 1 then Except.ok ⟨NodeType.leaf, [10, 20], [100, 200]⟩
  else if offset = 2 then Except.ok ⟨NodeType.leaf, [60, 70], [600, 700]⟩
  else Except.error (DecodingError.corrupt "unmapped offset")

/-- Claim C7 (code bug): no insertion into a tree satisfying the structural
invariants ever completes — it panics in `index_of` at the target Leaf — so
the post-insertion invariants are never established by the code. -/
theorem claim_C7_no_insertion_completes :
    OffsetTree.insert 9 c7b (OffsetTree.from_root_offset Nat 0 7) 15 150 =
      Except.error (Err.panicked "assertion failed: self.node_type != NodeType::Leaf") :=
  rfl

/-- Claim C8: resolution of a node reference is idempotent.  The first
access to an `Unloaded(offset)` reference decodes the record at `offset` and
transitions the reference to `Loaded`; on an already-`Loaded` reference,
`load` returns it unchanged, `get` hands out the same node, and `get_mut`
only flips the `modified` flag — each with a result independent of the
backend (quantifying over every backend expresses that no further backend
read can influence the outcome). -/
theorem claim_C8_resolution_idempotent :
    (∀ (b : Backend K) (offset : Nat) (dn : DiskNode K), b offset = Except.ok dn →
      NodeRef.load b (NodeRef.unloaded offset) =
        (Except.ok (), NodeRef.loaded (Node.fromDisk dn))) ∧
    (∀ (b : Backend K) (n : Node K),
      NodeRef.load b (NodeRef.loaded n) = (Except.ok (), NodeRef.loaded n)) ∧
    (∀ (b : Backend K) (n : Node K),
      NodeRef.get b (NodeRef.loaded n) = (Except.ok n, NodeRef.loaded n)) ∧
    (∀ (b : Backend K) (n : Node K),
      NodeRef.get_mut b (NodeRef.loaded n) =
        (Except.ok n.setModified, NodeRef.loaded n.setModified) ∧
      n.setModified.node_type = n.node_type ∧ n.setModified.keys = n.keys ∧
      n.setModified.children = n.children) := by
  refine ⟨?_, ?_, ?_, ?_⟩
  · intro b offset dn hb
    simp [NodeRef.load, hb]
  · intro b n
    rfl
  · intro b n
    rfl
  · intro b n
    exact ⟨rfl, rfl, rfl, rfl⟩

/-- Witness for C8 at a concrete backend, offset and record. -/
theorem claim_C8_resolution_idempotent_witness :
    NodeRef.load (fun _ => Except.ok (⟨NodeType.leaf, [], []⟩ : DiskNode Nat))
      (NodeRef.unloaded 5) =
      (Except.ok (), NodeRef.loaded (Node.fromDisk ⟨NodeType.leaf, [], []⟩)) ∧
    NodeRef.load (fun _ => Except.error (DecodingError.corrupt "never read"))
      (NodeRef.loaded (Node.fromDisk (⟨NodeType.leaf, [], []⟩ : DiskNode Nat))) =
      (Except.ok (), NodeRef.loaded (Node.fromDisk ⟨NodeType.leaf, [], []⟩)) :=
  ⟨claim_C8_resolution_idempotent.1 _ 5 _ rfl,
    claim_C8_resolution_idempotent.2.1 _ _⟩

/-- Concrete backend for C9's forward demonstration: the Root record at
offset 0 decodes, every child record is corrupt. -/
def c9b : Backend Nat := fun offset =>
  if offset = 0 then Except.ok ⟨NodeType.root, [10], [1, 2]⟩
  else Except.error (DecodingError.corrupt "leaf record corrupt")

/-- Claim C9: every `DecodingError` returned by a top-level tree operation
(`offset_for`, `contains`, `insert`) is literally an error the backend
returned for some offset — propagated unchanged, with no retry, no local
recovery and no invented errors — and, concretely, a corrupt child record
encountered mid-descent aborts both `offset_for` and `insert` with exactly
that error rather than any partial result. -/
theorem claim_C9_decoding_failures_propagate :
    (∀ (fuel : Nat) (b : Backend K) (t : OffsetTree K) (key : K) (e : DecodingError),
      OffsetTree.offset_for fuel b t key = Except.error (Err.decoding e) →
      ∃ off, b off = Except.error e) ∧
    (∀ (fuel : Nat) (b : Backend K) (t : OffsetTree K) (key : K) (e : DecodingError),
      OffsetTree.contains fuel b t key = Except.error (Err.decoding e) →
      ∃ off, b off = Except.error e) ∧
    (∀ (fuel : Nat) (b : Backend K) (t : OffsetTree K) (key : K) (value : Nat)
      (e : DecodingError),
      OffsetTree.insert fuel b t key value = Except.error (Err.decoding e) →
      ∃ off, b off = Except.error e) ∧
    (OffsetTree.offset_for 5 c9b (OffsetTree.from_root_offset Nat 0 7) 5 =
      Except.error (Err.decoding (DecodingError.corrupt "leaf record corrupt")) ∧
    OffsetTree.insert 5 c9b (OffsetTree.from_root_offset Nat 0 7) 5 77 =
      Except.error (Err.decoding (DecodingError.corrupt "leaf record corrupt"))) :=
  ⟨offset_for_decoding_error_from_backend,
    contains_decoding_error_from_backend,
    tree_insert_decoding_error_from_backend,
    rfl, rfl⟩

/-- Witness for C9: the propagation direction applied at the concrete
corrupt backend. -/
theorem claim_C9_decoding_failures_propagate_witness :
    ∃ off, c9b off = Except.error (DecodingError.corrupt "leaf record corrupt") :=
  (claim_C9_decoding_failures_propagate (K := Nat)).1 5 c9b
    (OffsetTree.from_root_offset Nat 0 7) 5
    (DecodingError.corrupt "leaf record corrupt")
    (claim_C9_decoding_failures_propagate (K := Nat)).2.2.2.1

/-- Claim C10: a failed resolution is atomic for the reference.  When the
backend fails to decode `offset`, `load` returns that error and the
reference still holds `Unloaded(offset)`; a later access through a repaired
backend reads the backend again and resolves. -/
theorem claim_C10_failed_resolution_leaves_ref_unloaded
    (b b2 : Backend K) (offset : Nat) (e : DecodingError) (dn : DiskNode K)
    (hfail : b offset = Except.error e) (hok : b2 offset = Except.ok dn) :
    NodeRef.load b (NodeRef.unloaded offset) =
      (Except.error e, NodeRef.unloaded offset) ∧
    NodeRef.load b2 ((NodeRef.load b (NodeRef.unloaded offset)).2) =
      (Except.ok (), NodeRef.loaded (Node.fromDisk dn)) := by
  constructor
  · simp [NodeRef.load, hfail]
  · simp [NodeRef.load, hfail, hok]

/-- Witness for C10 at a concrete failing backend and a concrete repaired
backend. -/
theorem claim_C10_failed_resolution_witness :
    NodeRef.load (fun _ => Except.error (DecodingError.corrupt "bad bytes"))
      (NodeRef.unloaded 4 : NodeRef Nat) =
      (Except.error (DecodingError.corrupt "bad bytes"), NodeRef.unloaded 4) ∧
    NodeRef.load (fun _ => Except.ok (⟨NodeType.leaf, [1], [10]⟩ : DiskNode Nat))
      ((NodeRef.load (fun _ => Except.error (DecodingError.corrupt "bad bytes"))
        (NodeRef.unloaded 4 : NodeRef Nat)).2) =
      (Except.ok (), NodeRef.loaded (Node.fromDisk ⟨NodeType.leaf, [1], [10]⟩)) :=
  claim_C10_failed_resolution_leaves_ref_unloaded _ _ 4
    (DecodingError.corrupt "bad bytes") _ rfl rfl

end PBT
